import Mathlib

/-!
Verification of the IsDBI retrieval-augmented orchestration engine.

This file gives a shallow embedding, in Lean 4, of the core of the
repository: the document ingestion and index construction of
`document_manager.py` (class `DocumentManager`) and the RAG orchestration
of `modified-code.py` (class `AAOIFIAgentChain`): context formatting
(`_retrieve_relevant_documents`), the three-stage chain
(`process_standard`) and the relevance scorer (`find_relevant_fas_rules`).

Python strings are modelled as Lean `String` with explicit primitives
(`pyLen`, `pyTake`, `pyStrip`, `pyJoin`) that mirror `len`, slicing,
`str.strip` and `str.join` over the character list.  Python `float`
scores are modelled as `ℚ`.  Code that can raise an exception is
modelled with `Except`; code that catches every exception and returns a
string is modelled as a total function into `String`.
-/

/-- Python `len(s)`: number of characters of `s`. -/
def pyLen (s : String) : Nat := s.data.length

/-- Python slicing from the start, `s[:n]`: the first `n` characters of `s`
(all of `s` when it is shorter). -/
def pyTake (n : Nat) (s : String) : String := String.mk (s.data.take n)

/-- Python `s.strip()`: remove leading and trailing whitespace. -/
def pyStrip (s : String) : String :=
  String.mk (((s.data.dropWhile Char.isWhitespace).reverse.dropWhile Char.isWhitespace).reverse)

/-- Python `sep.join(parts)`. -/
def pyJoin (sep : String) : List String → String
  | [] => ""
  | [s] => s
  | s :: rest => s ++ sep ++ pyJoin sep rest

/-!
## Data model

`Meta` models the Python metadata dict of a langchain `Document` as it is
used by this repository: the `source` key (absent ⇒ `none`, the code then
falls back to the string `"Unknown source"`), and the `page` key.  The
`page` key is two-levelled: the outer `Option` is presence of the key
(absent ⇒ the code falls back to `"Unknown page"`), the inner `Option Int`
is the stored value, which `DocumentManager.load_documents` sets to
`page.get("page")` and may therefore be Python `None` (rendered `"None"`).
-/

structure Meta where
  source : Option String
  page : Option (Option Int)
deriving DecidableEq

/-- A langchain `Document`: `page_content` plus metadata. -/
structure Doc where
  page_content : String
  metadata : Meta
deriving DecidableEq

/-- Rendering of the `page` metadata value exactly as the Python f-string
and `dict.get` default produce it. -/
def pageRepr : Option (Option Int) → String
  | none => "Unknown page"
  | some none => "None"
  | some (some n) => toString n

/-- One entry of the `rules` list built by `find_relevant_fas_rules`.
`page` keeps the raw metadata value (with `none` standing for the absent
key, for which the code stores the default `"Unknown page"`). -/
structure Rule where
  source : String
  page : Option (Option Int)
  content_snippet : String
  relevance_percentage : ℚ
deriving DecidableEq

/-- The dictionary returned by `find_relevant_fas_rules`. -/
structure FasResult where
  message : String
  rules : List Rule
deriving DecidableEq

/-- The dictionary returned by `process_standard` on success. -/
structure PipelineOutput where
  summary : String
  suggestion : String
  validation : String
deriving DecidableEq

/-!
## Document Store: `DocumentManager` (document_manager.py)

Raw corpus records as parsed from the JSON file.  A missing dictionary
key is `none`: `item["file_name"]` and `item["content"]` raise `KeyError`
when missing, while `page.get("text", "")` and `page.get("page")` default
silently.
-/

structure RawPage where
  text : Option String
  page : Option Int
deriving DecidableEq

structure RawItem where
  file_name : Option String
  content : Option (List RawPage)
deriving DecidableEq

/-- The mutable state of a `DocumentManager`: its `documents` list and its
vector store.  The FAISS index is modelled by the list of documents it
was built from (its entries, in insertion order). -/
structure DocumentManagerState where
  documents : List Doc
  vectorstore : Option (List Doc)
deriving DecidableEq

/-- A fresh `DocumentManager` (constructor `__init__`). -/
def dmInit : DocumentManagerState := { documents := [], vectorstore := none }

/-- The inner page loop of `load_documents` for one record: strip each
page's text and keep a `Document` for every non-empty result. -/
def pageChunks (file_name : String) (pages : List RawPage) : List Doc :=
  pages.filterMap fun page =>
    let text := pyStrip (page.text.getD "")
    if text == "" then none
    else some { page_content := text
                metadata := { source := some file_name, page := some page.page } }

/-- A corpus record is well-formed when both required keys are present. -/
def itemWF (it : RawItem) : Prop :=
  (∃ fn, it.file_name = some fn) ∧ (∃ pages, it.content = some pages)

instance (it : RawItem) : Decidable (itemWF it) :=
  decidable_of_iff (it.file_name.isSome = true ∧ it.content.isSome = true)
    (by
      unfold itemWF
      constructor
      · rintro ⟨h1, h2⟩
        exact ⟨Option.isSome_iff_exists.mp h1, Option.isSome_iff_exists.mp h2⟩
      · rintro ⟨⟨fn, h1⟩, pages, h2⟩
        simp [h1, h2])

/-- The chunks produced by the well-formed records of a corpus. -/
def corpusChunks (data : List RawItem) : List Doc :=
  data.flatMap fun it =>
    match it.file_name, it.content with
    | some fn, some pages => pageChunks fn pages
    | _, _ => []

/-- Number of pages of a record list whose text is non-empty after
stripping. -/
def countNonEmpty (pages : List RawPage) : Nat :=
  (pages.filter fun page => !(pyStrip (page.text.getD "") == "")).length

/-- Number of non-empty page-text entries of a whole corpus. -/
def corpusCount (data : List RawItem) : Nat :=
  (data.map fun it =>
    match it.file_name, it.content with
    | some _, some pages => countNonEmpty pages
    | _, _ => 0).sum

/-- The item loop of `load_documents`: records are processed in order,
accumulating chunks; the first record with a missing `file_name` or
`content` key raises `KeyError`, which the surrounding `try` converts
into the failure result — keeping the chunks accumulated so far. -/
def loadItems : List RawItem → List Doc → Bool × List Doc
  | [], acc => (true, acc)
  | it :: rest, acc =>
    match it.file_name, it.content with
    | some fn, some pages => loadItems rest (acc ++ pageChunks fn pages)
    | _, _ => (false, acc)

/-- `DocumentManager.load_documents` on already-parsed JSON data: resets
`self.documents` to `[]`, runs the record loop, returns `True` on success
and `False` when a record is malformed (the partial list stays in
`self.documents`).  The vector store is untouched. -/
def load_documents (st : DocumentManagerState) (data : List RawItem) :
    Bool × DocumentManagerState :=
  let r := loadItems data []
  (r.1, { st with documents := r.2 })

/-- `DocumentManager.build_vectorstore`: fails when no documents are
loaded, otherwise replaces the vector store with an index over exactly
the loaded documents. -/
def build_vectorstore (st : DocumentManagerState) : Bool × DocumentManagerState :=
  if st.documents.isEmpty then (false, st)
  else (true, { st with vectorstore := some st.documents })

/-!
## Retriever: `AAOIFIAgentChain._retrieve_relevant_documents`

The retriever argument models `self.retriever` (`none` when absent) as a
function from the query to either a raised exception (`Except.error`,
caught by the method) or the list of documents returned by
`get_relevant_documents`.  The method itself never raises: every branch
returns a string.
-/

/-- The body of the `for i, doc in enumerate(docs)` loop: the context
block for the document at 0-based position `i`. -/
def formatDoc (i : Nat) (doc : Doc) : String :=
  "Document " ++ toString (i + 1) ++ " (Source: " ++
    doc.metadata.source.getD "Unknown source" ++ ", Page: " ++
    pageRepr doc.metadata.page ++ "):\n" ++ doc.page_content ++ "\n"

/-- `context_parts` accumulated by the enumerate loop, starting at
index `i`. -/
def contextParts (i : Nat) : List Doc → List String
  | [] => []
  | doc :: rest => formatDoc i doc :: contextParts (i + 1) rest

/-- `AAOIFIAgentChain._retrieve_relevant_documents`. -/
def retrieve_relevant_documents
    (retriever : Option (String → Except String (List Doc))) (query : String) : String :=
  match retriever with
  | none => "No document retriever available. Proceeding without additional context."
  | some r =>
    match r query with
    | Except.error _ => "Error retrieving documents from knowledge base."
    | Except.ok docs =>
      if docs.isEmpty then "No relevant documents found in knowledge base."
      else pyJoin "\n" (contextParts 0 docs)

/-!
## Stage Chain Orchestrator: `AAOIFIAgentChain.process_standard`

The three `LLMChain.invoke` calls are modelled by a `GenProviders`
record: each stage maps its prompt inputs to either a raised provider
exception (`Except.error`) or its output text.  `process_standard`
catches nothing, so a provider error propagates and aborts the whole
call.  The second component of the result records, in order, the queries
issued to `_retrieve_relevant_documents` before the failing point —
observable instrumentation for the chaining property, added to the
faithful translation of the control flow.
-/

structure GenProviders where
  review : String → String → Except String String
  enhance : String → String → Except String String
  validate : String → String → String → Except String String

/-- `query_text = input_text[:1000] if len(input_text) > 1000 else input_text`. -/
def queryText (input_text : String) : String :=
  if pyLen input_text > 1000 then pyTake 1000 input_text else input_text

/-- `AAOIFIAgentChain.process_standard`, with the retrieval queries it
issues recorded in order in the second component. -/
def process_standard (retrieve : String → String) (g : GenProviders)
    (input_text : String) : Except String PipelineOutput × List String :=
  let query_text := queryText input_text
  let review_context := retrieve query_text
  match g.review input_text review_context with
  | Except.error e => (Except.error e, [query_text])
  | Except.ok summary =>
    let enhancement_context := retrieve summary
    match g.enhance summary enhancement_context with
    | Except.error e => (Except.error e, [query_text, summary])
    | Except.ok suggestion =>
      let validation_context := retrieve suggestion
      match g.validate input_text suggestion validation_context with
      | Except.error e => (Except.error e, [query_text, summary, suggestion])
      | Except.ok validation =>
        (Except.ok { summary := summary, suggestion := suggestion, validation := validation },
         [query_text, summary, suggestion])

/-!
## Relevance Scorer: `AAOIFIAgentChain.find_relevant_fas_rules`

`retrieveTop` models `_retrieve_top_fas_rules`: it is total (that method
catches its exceptions and returns `[]` when the retriever or the vector
store is missing) and yields document/score pairs.  Scores are `ℚ`.
`find_relevant_fas_rules` divides each score by the batch maximum; in
Python this division raises `ZeroDivisionError` at the first loop
iteration when `max_score == 0`.  Because the denominator is the same
for every iteration, the embedding hoists that failure condition to a
single check before the loop; otherwise the loop is the `List.map`.
-/

/-- Python `max` over a non-empty list (`[]` is unreachable on the code
path that calls this). -/
def pyMaxQ : List ℚ → ℚ
  | [] => 0
  | x :: xs => xs.foldl max x

/-- Python `round(x, 2)` on the rational model of floats. -/
def round2 (q : ℚ) : ℚ := (round (q * 100) : ℤ) / 100

/-- `doc.page_content[:200] + "..." if len(doc.page_content) > 200 else
doc.page_content`. -/
def contentSnippet (s : String) : String :=
  if pyLen s > 200 then String.mk ((s.data.take 200) ++ "...".data) else s

/-- The rule dictionary built for one document/score pair, given the
batch maximum `max_score`. -/
def ruleOf (max_score : ℚ) (p : Doc × ℚ) : Rule :=
  { source := p.1.metadata.source.getD "Unknown source"
    page := p.1.metadata.page
    content_snippet := contentSnippet p.1.page_content
    relevance_percentage := round2 (p.2 / max_score * 100) }

/-- `query_text = f"{context} {question}"`, truncated to 1000 characters
when longer. -/
def combineQuery (context question : String) : String :=
  let q := context ++ " " ++ question
  if pyLen q > 1000 then pyTake 1000 q else q

/-- `AAOIFIAgentChain.find_relevant_fas_rules`. -/
def find_relevant_fas_rules (retrieveTop : String → Nat → List (Doc × ℚ))
    (context question : String) : Except String FasResult :=
  let query_text := combineQuery context question
  let docs_and_scores := retrieveTop query_text 3
  if docs_and_scores.isEmpty then
    Except.ok { message := "No relevant FAS rules found or retriever not available."
                rules := [] }
  else
    let max_score := if docs_and_scores.isEmpty then 1
                     else pyMaxQ (docs_and_scores.map Prod.snd)
    if max_score = 0 then Except.error "ZeroDivisionError"
    else
      let rules := docs_and_scores.map (ruleOf max_score)
      Except.ok { message := "Found " ++ toString rules.length ++ " relevant FAS rules."
                  rules := rules }

/-!
## Concrete instances used by witnesses and counterexamples
-/

/-- A well-formed corpus record with one non-empty page. -/
def goodItemC4 : RawItem :=
  { file_name := some "A", content := some [{ text := some "riba", page := some 1 }] }

/-- A malformed corpus record: the `file_name` key is missing. -/
def badItemC4 : RawItem := { file_name := none, content := some [] }

/-- A well-formed corpus whose only page is blank after stripping. -/
def dataBlankC6 : List RawItem :=
  [{ file_name := some "A", content := some [{ text := some "   ", page := some 1 }] }]

/-- A well-formed corpus with one non-empty and one empty page. -/
def dataC6 : List RawItem :=
  [{ file_name := some "B"
     content := some [{ text := some " salam ", page := some 2 },
                      { text := some "", page := some 3 }] }]

/-- A well-formed one-record corpus for the idempotence witness. -/
def dataC10 : List RawItem :=
  [{ file_name := some "C", content := some [{ text := some "ijara", page := some 4 }] }]

/-- A deterministic context formatter standing for
`_retrieve_relevant_documents` in chain runs. -/
def retrC3 : String → String := fun q => "CTX " ++ q

/-- Generation providers that succeed at every stage. -/
def gOkC2 : GenProviders :=
  { review := fun _ _ => Except.ok "S"
    enhance := fun _ _ => Except.ok "G"
    validate := fun _ _ _ => Except.ok "V" }

/-- Generation providers failing only at the enhancement stage, with
error value `"E"`. -/
def gFailEnh : GenProviders :=
  { review := fun _ _ => Except.ok "S"
    enhance := fun _ _ => Except.error "E"
    validate := fun _ _ _ => Except.ok "V" }

/-- Generation providers failing only at the validation stage, with the
same error value `"E"`. -/
def gFailVal : GenProviders :=
  { review := fun _ _ => Except.ok "S"
    enhance := fun _ _ => Except.ok "G"
    validate := fun _ _ _ => Except.error "E" }

/-- A document with full metadata. -/
def docC5a : Doc := { page_content := "foo", metadata := { source := some "A", page := some (some 1) } }

/-- A document with missing source key and a stored `None` page. -/
def docC5b : Doc := { page_content := "bar", metadata := { source := none, page := some none } }

/-- A retriever returning two fixed documents for every query. -/
def retrC5 : String → Except String (List Doc) := fun _ => Except.ok [docC5a, docC5b]

/-- A document for the zero-score crash input. -/
def docC1 : Doc := { page_content := "mudaraba", metadata := { source := some "FAS4", page := some (some 7) } }

/-- A retrieval backend returning a single hit with raw score `0.0`
(as the fallback branch of `_retrieve_top_fas_rules` does for every
hit when scores are unavailable). -/
def rtC1 : String → Nat → List (Doc × ℚ) := fun _ _ => [(docC1, 0)]

def docC7a : Doc := { page_content := "istisna", metadata := { source := some "FAS10", page := some (some 2) } }

def docC7b : Doc := { page_content := "salam", metadata := { source := some "FAS7", page := some (some 3) } }

/-- A retrieval backend returning two hits, both with raw score `0.0`. -/
def rtC7zero : String → Nat → List (Doc × ℚ) := fun _ _ => [(docC7a, 0), (docC7b, 0)]

/-- A retrieval backend with two positive-score hits, honouring the
requested `k`. -/
def rtC7 : String → Nat → List (Doc × ℚ) := fun _ k => ([(docC7a, 4), (docC7b, 2)]).take k

def docC9a : Doc := { page_content := "ijara muntahia", metadata := { source := some "FAS32", page := some (some 9) } }

def docC9b : Doc := { page_content := "murabaha", metadata := { source := some "FAS28", page := some (some 5) } }

/-- A retrieval backend whose first hit carries the maximal raw score. -/
def rtC9 : String → Nat → List (Doc × ℚ) := fun _ k => ([(docC9a, 3), (docC9b, 1)]).take k

/-- A chunk text of exactly 201 characters. -/
def t201 : String := String.mk (List.replicate 201 'a')

/-!
### Sanity checks on the primitives (kernel-evaluated)
-/

example : pyLen "abc" = 3 := rfl
example : pyTake 2 "abc" = "ab" := rfl
example : pyStrip "  a b  " = "a b" := rfl
example : pyJoin "\n" ["x", "y"] = "x\ny" := rfl
example : pyStrip "   " = "" := rfl

example :
    load_documents dmInit [goodItemC4] =
      (true, { documents := [{ page_content := "riba"
                               metadata := { source := some "A", page := some (some 1) } }]
               vectorstore := none }) := rfl

example :
    find_relevant_fas_rules (fun _ _ => []) "a" "b" =
      Except.ok { message := "No relevant FAS rules found or retriever not available."
                  rules := [] } := rfl

/-!
### Helper lemmas about the Document Store
-/

lemma pageChunks_cons (fn : String) (p : RawPage) (ps : List RawPage) :
    pageChunks fn (p :: ps) =
      if pyStrip (p.text.getD "") = "" then pageChunks fn ps
      else { page_content := pyStrip (p.text.getD "")
             metadata := { source := some fn, page := some p.page } } :: pageChunks fn ps := by
  by_cases h : pyStrip (p.text.getD "") = "" <;>
    simp [pageChunks, List.filterMap_cons, h]

lemma countNonEmpty_cons (p : RawPage) (ps : List RawPage) :
    countNonEmpty (p :: ps) =
      if pyStrip (p.text.getD "") = "" then countNonEmpty ps
      else countNonEmpty ps + 1 := by
  by_cases h : pyStrip (p.text.getD "") = "" <;>
    simp [countNonEmpty, List.filter_cons, h]

lemma pageChunks_length (fn : String) (pages : List RawPage) :
    (pageChunks fn pages).length = countNonEmpty pages := by
  induction pages with
  | nil => rfl
  | cons p ps ih =>
    rw [pageChunks_cons, countNonEmpty_cons]
    by_cases h : pyStrip (p.text.getD "") = "" <;> simp [h, ih]

lemma corpusChunks_cons (it : RawItem) (rest : List RawItem) :
    corpusChunks (it :: rest) =
      (match it.file_name, it.content with
       | some fn, some pages => pageChunks fn pages
       | _, _ => []) ++ corpusChunks rest := by
  simp [corpusChunks]

lemma corpusChunks_length (data : List RawItem) :
    (corpusChunks data).length = corpusCount data := by
  induction data with
  | nil => rfl
  | cons it rest ih =>
    rw [corpusChunks_cons]
    unfold corpusCount at *
    cases hf : it.file_name <;> cases hc : it.content <;>
      simp [hf, hc, ih, pageChunks_length]

lemma loadItems_wf (data : List RawItem) (acc : List Doc)
    (h : ∀ it ∈ data, itemWF it) :
    loadItems data acc = (true, acc ++ corpusChunks data) := by
  induction data generalizing acc with
  | nil => simp [loadItems, corpusChunks]
  | cons it rest ih =>
    obtain ⟨⟨fn, hfn⟩, pages, hc⟩ := h it (by simp)
    rw [corpusChunks_cons]
    unfold loadItems
    rw [hfn, hc]
    simp only [hfn, hc]
    rw [ih _ (fun x hx => h x (by simp [hx]))]
    simp

lemma loadItems_bad (pre : List RawItem) (bad : RawItem) (rest : List RawItem)
    (acc : List Doc) (hpre : ∀ it ∈ pre, itemWF it) (hbad : ¬ itemWF bad) :
    loadItems (pre ++ bad :: rest) acc = (false, acc ++ corpusChunks pre) := by
  induction pre generalizing acc with
  | nil =>
    unfold loadItems
    cases hf : bad.file_name with
    | some fn =>
      cases hc : bad.content with
      | some pages => exact absurd ⟨⟨fn, hf⟩, pages, hc⟩ hbad
      | none => simp [hf, hc, corpusChunks]
    | none =>
      cases hc : bad.content <;> simp [hf, hc, corpusChunks]
  | cons it pre ih =>
    obtain ⟨⟨fn, hfn⟩, pages, hc⟩ := hpre it (by simp)
    rw [corpusChunks_cons]
    unfold loadItems
    simp only [List.cons_append, hfn, hc]
    rw [ih _ (fun x hx => hpre x (by simp [hx]))]
    simp

lemma load_documents_wf_eq (st : DocumentManagerState) (data : List RawItem)
    (hwf : ∀ it ∈ data, itemWF it) :
    load_documents st data = (true, { st with documents := corpusChunks data }) := by
  unfold load_documents
  rw [loadItems_wf data [] hwf]
  simp

/-!
## Claim theorems: Document Store
-/

/-- C4 (counterexample): the claim that a failed `load_documents` call
leaves no partially ingested chunk list is false.  On the corpus
`[goodItemC4, badItemC4]` the call fails (returns `false`) yet the chunk
of the first, well-formed record remains in the store. -/
theorem load_documents_partial_chunks_remain :
    (load_documents dmInit [goodItemC4, badItemC4]).1 = false ∧
      (load_documents dmInit [goodItemC4, badItemC4]).2.documents ≠ [] := by
  have hdoc : (load_documents dmInit [goodItemC4, badItemC4]).2.documents =
      [{ page_content := "riba"
         metadata := { source := some "A", page := some (some 1) } }] := rfl
  rw [hdoc]
  exact ⟨rfl, by simp⟩

/-- C4 (amended): on a corpus whose first malformed record is preceded by
well-formed ones, `load_documents` fails, and the store afterwards holds
exactly the chunks of the records preceding the malformed one (the
previous contents having been cleared at the start of the call); the
vector store is untouched.  Ingestion is therefore not all-or-nothing. -/
theorem load_documents_failure_keeps_prefix_chunks
    (st : DocumentManagerState) (pre : List RawItem) (bad : RawItem)
    (rest : List RawItem) (hpre : ∀ it ∈ pre, itemWF it) (hbad : ¬ itemWF bad) :
    (load_documents st (pre ++ bad :: rest)).1 = false ∧
      (load_documents st (pre ++ bad :: rest)).2.documents = corpusChunks pre ∧
      (load_documents st (pre ++ bad :: rest)).2.vectorstore = st.vectorstore := by
  unfold load_documents
  rw [loadItems_bad pre bad rest [] hpre hbad]
  simp

/-- C4 witness: the amended statement at the concrete corpus
`[goodItemC4, badItemC4]`. -/
theorem load_documents_failure_keeps_prefix_chunks_witness :
    (load_documents dmInit [goodItemC4, badItemC4]).1 = false ∧
      (load_documents dmInit [goodItemC4, badItemC4]).2.documents =
        corpusChunks [goodItemC4] := by
  have h := load_documents_failure_keeps_prefix_chunks dmInit [goodItemC4] badItemC4 []
    (by decide) (by decide)
  exact ⟨h.1, h.2.1⟩

/-- C6 (counterexample): the claim that `build_vectorstore` after ingestion
always yields an index of exactly M entries fails when M = 0.  On a
well-formed corpus whose only page is blank after stripping, ingestion
succeeds with 0 chunks, but `build_vectorstore` then fails and builds no
index at all (rather than an index of 0 entries). -/
theorem build_vectorstore_fails_on_all_blank :
    (load_documents dmInit dataBlankC6).1 = true ∧
      (load_documents dmInit dataBlankC6).2.documents = [] ∧
      (build_vectorstore (load_documents dmInit dataBlankC6).2).1 = false ∧
      (build_vectorstore (load_documents dmInit dataBlankC6).2).2.vectorstore = none :=
  ⟨rfl, rfl, rfl, rfl⟩

/-- C6 (amended): on a well-formed corpus, `load_documents` succeeds and
creates exactly one chunk per page whose text is non-empty after
stripping (M = `corpusCount`), each chunk carrying the record's file name
as source, the page number as metadata and the stripped non-empty text;
when M ≥ 1, a subsequent `build_vectorstore` succeeds and yields an index
of exactly M entries (when M = 0 it fails instead — see the
counterexample). -/
theorem load_then_build_index_size (st : DocumentManagerState)
    (data : List RawItem) (hwf : ∀ it ∈ data, itemWF it) :
    (load_documents st data).1 = true ∧
      (load_documents st data).2.documents.length = corpusCount data ∧
      (∀ c ∈ (load_documents st data).2.documents, ∃ it ∈ data, ∃ fn pages page,
        it.file_name = some fn ∧ it.content = some pages ∧ page ∈ pages ∧
        c.page_content = pyStrip (page.text.getD "") ∧ c.page_content ≠ "" ∧
        c.metadata = { source := some fn, page := some page.page }) ∧
      (0 < corpusCount data →
        (build_vectorstore (load_documents st data).2).1 = true ∧
        ((build_vectorstore (load_documents st data).2).2.vectorstore.getD []).length =
          corpusCount data) := by
  have hl := load_documents_wf_eq st data hwf
  rw [hl]
  refine ⟨rfl, corpusChunks_length data, ?_, ?_⟩
  · intro c hc
    simp only at hc
    rw [corpusChunks, List.mem_flatMap] at hc
    obtain ⟨it, hit, hcf⟩ := hc
    obtain ⟨⟨fn, hfn⟩, pages, hcont⟩ := hwf it hit
    rw [hfn, hcont] at hcf
    simp only at hcf
    rw [pageChunks, List.mem_filterMap] at hcf
    obtain ⟨page, hpage, hsome⟩ := hcf
    simp only at hsome
    by_cases hblank : pyStrip (page.text.getD "") = ""
    · rw [if_pos (by simpa using hblank)] at hsome
      cases hsome
    · rw [if_neg (by simpa using hblank)] at hsome
      obtain rfl := Option.some.inj hsome
      exact ⟨it, hit, fn, pages, page, hfn, hcont, hpage, rfl, hblank, rfl⟩
  · intro hpos
    have hne : (corpusChunks data).isEmpty = false := by
      rw [List.isEmpty_eq_false_iff_exists_mem]
      rcases List.exists_mem_of_length_pos (by rw [corpusChunks_length]; exact hpos) with ⟨c, hc⟩
      exact ⟨c, hc⟩
    unfold build_vectorstore
    simp only [hne]
    simpa using corpusChunks_length data

/-- C6 witness: the amended statement at the concrete corpus `dataC6`
(two pages, one non-empty): ingestion succeeds, the count is 1 and the
built index has 1 entry. -/
theorem load_then_build_index_size_witness :
    (load_documents dmInit dataC6).1 = true ∧
      (load_documents dmInit dataC6).2.documents.length = 1 ∧
      ((build_vectorstore (load_documents dmInit dataC6).2).2.vectorstore.getD []).length = 1 := by
  have h := load_then_build_index_size dmInit dataC6 (by decide)
  have hcount : corpusCount dataC6 = 1 := rfl
  refine ⟨h.1, ?_, ?_⟩
  · rw [h.2.1, hcount]
  · rw [(h.2.2.2 (by rw [hcount]; exact Nat.one_pos)).2, hcount]

/-- C10: repeated successful ingestion is idempotent.  On a well-formed
corpus, `load_documents` succeeds, the result does not depend on the
previously stored chunk list (it is reset at the start of the call), and
a second call on the resulting state returns exactly the same result —
in particular the chunk count after two calls equals the count after
one. -/
theorem load_documents_idempotent (st : DocumentManagerState)
    (data : List RawItem) (hwf : ∀ it ∈ data, itemWF it) :
    (load_documents st data).1 = true ∧
      load_documents (load_documents st data).2 data = load_documents st data ∧
      (load_documents (load_documents st data).2 data).2.documents.length =
        (load_documents st data).2.documents.length := by
  have h1 := load_documents_wf_eq st data hwf
  have h2 := load_documents_wf_eq { st with documents := corpusChunks data } data hwf
  rw [h1]
  refine ⟨rfl, ?_, ?_⟩
  · rw [h2]
  · rw [h2]

/-- C10 witness: idempotence at the concrete corpus `dataC10`. -/
theorem load_documents_idempotent_witness :
    load_documents (load_documents dmInit dataC10).2 dataC10 =
      load_documents dmInit dataC10 :=
  (load_documents_idempotent dmInit dataC10 (by decide)).2.1

/-!
## Claim theorems: Stage Chain Orchestrator
-/

/-- Unfolding equation of `process_standard` as a nested match. -/
lemma process_standard_eq (retrieve : String → String) (g : GenProviders)
    (input_text : String) :
    process_standard retrieve g input_text =
      (match g.review input_text (retrieve (queryText input_text)) with
       | Except.error e => (Except.error e, [queryText input_text])
       | Except.ok s =>
         match g.enhance s (retrieve s) with
         | Except.error e => (Except.error e, [queryText input_text, s])
         | Except.ok u =>
           match g.validate input_text u (retrieve u) with
           | Except.error e => (Except.error e, [queryText input_text, s, u])
           | Except.ok v =>
             (Except.ok { summary := s, suggestion := u, validation := v },
              [queryText input_text, s, u])) := rfl

/-- C2: whenever `process_standard` succeeds, the retrieval queries it
issued are, in order: the first 1000 characters of the raw input (the
whole input when shorter), then exactly stage 1's full output text (the
summary), then exactly stage 2's full output text (the suggestion). -/
theorem process_standard_query_chain (retrieve : String → String)
    (g : GenProviders) (input_text : String) (out : PipelineOutput)
    (qs : List String)
    (h : process_standard retrieve g input_text = (Except.ok out, qs)) :
    qs = [queryText input_text, out.summary, out.suggestion] := by
  rw [process_standard_eq] at h
  split at h
  · simp at h
  · split at h
    · simp at h
    · split at h
      · simp at h
      · simp only [Prod.mk.injEq, Except.ok.injEq] at h
        obtain ⟨rfl, rfl⟩ := h
        rfl

/-- C2 witness: at a concrete retriever and all-succeeding providers on
input `"t"`, the recorded queries are the truncated input, the summary
`"S"` and the suggestion `"G"`. -/
theorem process_standard_query_chain_witness :
    (process_standard retrC3 gOkC2 "t").2 = [queryText "t", "S", "G"] := by
  have h : process_standard retrC3 gOkC2 "t" =
      (Except.ok { summary := "S", suggestion := "G", validation := "V" }, ["t", "S", "G"]) := rfl
  have h2 := process_standard_query_chain retrC3 gOkC2 "t"
    { summary := "S", suggestion := "G", validation := "V" } ["t", "S", "G"] h
  rw [h]
  exact h2

/-- C3 (counterexample): the claim that a failed chain call carries the
name of the failing stage is false.  With providers `gFailEnh` (failure
only at the enhancement stage) and `gFailVal` (failure only at the
validation stage), both sharing the raw error value `"E"`, the two
`process_standard` calls return the identical error result; the error
value therefore cannot carry (nor determine) the failing stage's name. -/
theorem process_standard_error_lacks_stage :
    (process_standard retrC3 gFailEnh "t").1 = Except.error "E" ∧
      (process_standard retrC3 gFailVal "t").1 = Except.error "E" ∧
      gFailEnh.enhance "S" (retrC3 "S") = Except.error "E" ∧
      gFailVal.enhance "S" (retrC3 "S") = Except.ok "G" ∧
      gFailVal.validate "t" "G" (retrC3 "G") = Except.error "E" :=
  ⟨rfl, rfl, rfl, rfl, rfl⟩

/-- C3 (amended): if the Generation Provider raises at any stage, the
whole `process_standard` call fails with the provider's own error value,
unchanged (it does not carry the failing stage's name), and no partial
`PipelineOutput` is returned — the result is an `Except.error`, never an
`Except.ok` holding a subset of the fields. -/
theorem process_standard_provider_failure_aborts (retrieve : String → String)
    (g : GenProviders) (input_text : String) :
    (∀ e, g.review input_text (retrieve (queryText input_text)) = Except.error e →
      (process_standard retrieve g input_text).1 = Except.error e) ∧
    (∀ s e, g.review input_text (retrieve (queryText input_text)) = Except.ok s →
      g.enhance s (retrieve s) = Except.error e →
      (process_standard retrieve g input_text).1 = Except.error e) ∧
    (∀ s u e, g.review input_text (retrieve (queryText input_text)) = Except.ok s →
      g.enhance s (retrieve s) = Except.ok u →
      g.validate input_text u (retrieve u) = Except.error e →
      (process_standard retrieve g input_text).1 = Except.error e) := by
  refine ⟨?_, ?_, ?_⟩
  · intro e h1
    simp only [process_standard_eq, h1]
  · intro s e h1 h2
    simp only [process_standard_eq, h1, h2]
  · intro s u e h1 h2 h3
    simp only [process_standard_eq, h1, h2, h3]

/-- C3 witness: the amended statement at a provider failing at the
enhancement stage. -/
theorem process_standard_provider_failure_aborts_witness :
    (process_standard retrC3 gFailEnh "t").1 = Except.error "E" :=
  (process_standard_provider_failure_aborts retrC3 gFailEnh "t").2.1 "S" "E" rfl rfl

/-!
## Claim theorems: Retriever
-/

/-- The enumerate loop renders exactly position `n + i` for the `i`-th
document. -/
lemma contextParts_eq_zipWith (ds : List Doc) (n : Nat) :
    contextParts n ds = List.zipWith formatDoc (List.range' n ds.length) ds := by
  induction ds generalizing n with
  | nil => rfl
  | cons d ds ih =>
    rw [contextParts, List.length_cons, List.range'_succ, List.zipWith_cons_cons, ih]

/-- C5: `_retrieve_relevant_documents` never raises and returns, for every
query: the no-retriever sentinel when there is no retriever; the
retrieval-error sentinel when the underlying retrieval raises; the
no-results sentinel when retrieval returns zero hits; and otherwise the
hits rendered as `"Document i (Source: source, Page: page):\n<text>\n"`
joined by newlines, in retrieval order, with `i` starting at 1. -/
theorem retrieve_relevant_documents_cases
    (r : String → Except String (List Doc)) (q : String) :
    retrieve_relevant_documents none q =
      "No document retriever available. Proceeding without additional context." ∧
    (∀ e, r q = Except.error e →
      retrieve_relevant_documents (some r) q =
        "Error retrieving documents from knowledge base.") ∧
    (r q = Except.ok [] →
      retrieve_relevant_documents (some r) q =
        "No relevant documents found in knowledge base.") ∧
    (∀ docs, r q = Except.ok docs → docs ≠ [] →
      retrieve_relevant_documents (some r) q =
        pyJoin "\n" (List.zipWith
          (fun i d => "Document " ++ toString (i + 1) ++ " (Source: " ++
            d.metadata.source.getD "Unknown source" ++ ", Page: " ++
            pageRepr d.metadata.page ++ "):\n" ++ d.page_content ++ "\n")
          (List.range docs.length) docs)) := by
  refine ⟨rfl, ?_, ?_, ?_⟩
  · intro e he
    simp only [retrieve_relevant_documents, he]
  · intro he
    simp only [retrieve_relevant_documents, he, List.isEmpty_nil, if_pos]
  · intro docs hdocs hne
    simp only [retrieve_relevant_documents, hdocs]
    rw [if_neg (by simpa [List.isEmpty_iff] using hne)]
    rw [contextParts_eq_zipWith, ← List.range_eq_range']
    rfl

/-- C5 witness: the formatted block at a concrete retriever returning two
documents, one with full metadata and one with a missing source key and
a stored `None` page. -/
theorem retrieve_relevant_documents_cases_witness :
    retrieve_relevant_documents (some retrC5) "q" =
      "Document 1 (Source: A, Page: 1):\nfoo\n\nDocument 2 (Source: Unknown source, Page: None):\nbar\n" := by
  have h := (retrieve_relevant_documents_cases retrC5 "q").2.2.2 [docC5a, docC5b] rfl
    (by simp)
  rw [h]
  rfl

/-!
## Claim theorems: Relevance Scorer
-/

/-- C1 (code bug): the division by `max_score` in
`find_relevant_fas_rules` is not guarded.  When retrieval returns a hit
batch whose maximal raw score is `0.0` — as the fallback branch of
`_retrieve_top_fas_rules` produces for every hit — the percentage
computation `(score / max_score) * 100` raises `ZeroDivisionError`
instead of reporting all percentages as 0. -/
theorem find_relevant_fas_rules_zero_score_crash :
    find_relevant_fas_rules rtC1 "financing" "which standard" =
      Except.error "ZeroDivisionError" := rfl

/-- C7 (counterexample): the claim that a non-empty hit batch always
yields a rules list (of length ≤ 3, in retrieval order) is false: on the
concrete backend `rtC7zero`, retrieval returns two hits, yet the call
raises `ZeroDivisionError` (both raw scores are 0) and produces no rules
list at all. -/
theorem find_relevant_fas_rules_crash_on_zero_scores :
    (rtC7zero (combineQuery "x" "y") 3).length = 2 ∧
      find_relevant_fas_rules rtC7zero "x" "y" = Except.error "ZeroDivisionError" :=
  ⟨rfl, rfl⟩

/-- C7 (amended): provided the backend honours the requested `k`
(`length ≤ k`): with zero hits, `find_relevant_fas_rules` returns the
explicit no-results report (empty rules list plus descriptive message),
not an error; with a non-empty hit batch whose maximal raw score is
non-zero (otherwise the call crashes — see the counterexample), it
returns a rules list of the same length as the batch, hence of length at
most 3, whose `i`-th entry is derived from the `i`-th retrieval hit —
the batch order, never re-sorted by percentage. -/
theorem find_relevant_fas_rules_report_shape
    (rt : String → Nat → List (Doc × ℚ)) (c q : String)
    (hk : ∀ s k, (rt s k).length ≤ k) :
    (rt (combineQuery c q) 3 = [] →
      find_relevant_fas_rules rt c q =
        Except.ok { message := "No relevant FAS rules found or retriever not available."
                    rules := [] }) ∧
    (∀ das, rt (combineQuery c q) 3 = das → das ≠ [] →
      pyMaxQ (das.map Prod.snd) ≠ 0 →
      ∃ res, find_relevant_fas_rules rt c q = Except.ok res ∧
        res.rules.length = das.length ∧ res.rules.length ≤ 3 ∧
        ∀ i, res.rules.get? i = (das.get? i).map (ruleOf (pyMaxQ (das.map Prod.snd)))) := by
  constructor
  · intro h
    simp only [find_relevant_fas_rules, h, List.isEmpty_nil, if_pos]
  · intro das hdas hne hmax
    obtain ⟨d, ds, rfl⟩ := List.exists_cons_of_ne_nil hne
    refine ⟨{ message := "Found " ++ toString ((d :: ds).length) ++ " relevant FAS rules."
              rules := (d :: ds).map (ruleOf (pyMaxQ ((d :: ds).map Prod.snd))) }, ?_, ?_, ?_, ?_⟩
    · simp only [find_relevant_fas_rules, hdas, List.isEmpty_cons, Bool.false_eq_true,
        if_false, if_neg hmax, List.length_map]
    · simp
    · rw [List.length_map, ← hdas]
      exact hk (combineQuery c q) 3
    · intro i
      exact List.get?_map _ _ _

/-- C7 witness: the amended statement's non-empty branch at the concrete
backend `rtC7` (two hits, scores 4 and 2): the call succeeds with a rules
list of length 2. -/
theorem find_relevant_fas_rules_report_shape_witness :
    ∃ res, find_relevant_fas_rules rtC7 "a" "b" = Except.ok res ∧
      res.rules.length = 2 := by
  have hmax : pyMaxQ (([(docC7a, (4:ℚ)), (docC7b, 2)]).map Prod.snd) = max 4 2 := rfl
  obtain ⟨res, h1, h2, h3, h4⟩ :=
    (find_relevant_fas_rules_report_shape rtC7 "a" "b"
      (by intro s k; simp only [rtC7, List.length_take]; omega)).2
      [(docC7a, 4), (docC7b, 2)] rfl (by simp)
      (by rw [hmax]; positivity)
  refine ⟨res, h1, ?_⟩
  rw [h2]
  rfl

/-- C9: whenever the hit batch is non-empty and its maximal raw score is
strictly positive, the rule built from a maximal-score hit has
`relevance_percentage` exactly 100: percentages are normalised relative
to the returned batch, so the top raw score always maps to 100%. -/
theorem find_relevant_fas_rules_top_hit_hundred
    (rt : String → Nat → List (Doc × ℚ)) (c q : String) (das : List (Doc × ℚ))
    (hdas : rt (combineQuery c q) 3 = das) (hne : das ≠ [])
    (hpos : 0 < pyMaxQ (das.map Prod.snd))
    (i : Nat) (hit : Doc × ℚ) (hi : das.get? i = some hit)
    (hmax : hit.2 = pyMaxQ (das.map Prod.snd)) :
    ∃ res, find_relevant_fas_rules rt c q = Except.ok res ∧
      ∃ rule, res.rules.get? i = some rule ∧ rule.relevance_percentage = 100 := by
  obtain ⟨d, ds, rfl⟩ := List.exists_cons_of_ne_nil hne
  refine ⟨{ message := "Found " ++ toString ((d :: ds).length) ++ " relevant FAS rules."
            rules := (d :: ds).map (ruleOf (pyMaxQ ((d :: ds).map Prod.snd))) }, ?_,
    ruleOf (pyMaxQ ((d :: ds).map Prod.snd)) hit, ?_, ?_⟩
  · simp only [find_relevant_fas_rules, hdas, List.isEmpty_cons, Bool.false_eq_true,
      if_false, if_neg hpos.ne', List.length_map]
  · rw [List.get?_map, hi]
    rfl
  · show round2 (hit.2 / pyMaxQ ((d :: ds).map Prod.snd) * 100) = 100
    rw [hmax, div_self hpos.ne']
    norm_num [round2, round_eq]

/-- C9 witness: at the concrete backend `rtC9` (scores 3 and 1), the
first rule's relevance percentage is exactly 100. -/
theorem find_relevant_fas_rules_top_hit_hundred_witness :
    ∃ res, find_relevant_fas_rules rtC9 "a" "b" = Except.ok res ∧
      ∃ rule, res.rules.get? 0 = some rule ∧ rule.relevance_percentage = 100 := by
  have hmax : pyMaxQ (([(docC9a, (3:ℚ)), (docC9b, 1)]).map Prod.snd) = max 3 1 := rfl
  have hm : max (3:ℚ) 1 = 3 := max_eq_left (by norm_num)
  exact find_relevant_fas_rules_top_hit_hundred rtC9 "a" "b"
    [(docC9a, 3), (docC9b, 1)] rfl (by simp)
    (by rw [hmax, hm]; norm_num) 0 (docC9a, 3) rfl (by rw [hmax, hm])

set_option maxRecDepth 4000 in
/-- C8 (counterexample): a truncated snippet is not a prefix of the
original chunk text.  For a 201-character text, the snippet is its first
200 characters followed by the three-character ellipsis marker — 203
characters in total, which cannot be a prefix of a 201-character text. -/
theorem content_snippet_not_a_prefix :
    ¬ (contentSnippet t201).data <+: t201.data := by
  intro hp
  have hle := hp.length_le
  have h1 : (contentSnippet t201).data.length = 203 := by decide
  have h2 : t201.data.length = 201 := by decide
  omega

/-- C8 (amended): the snippet is the full unmodified text when the chunk
text has at most 200 characters, and otherwise the first 200 characters
followed by the ellipsis marker; every snippet has at most 203
characters, and its first 200 characters (the part before the ellipsis)
are a prefix of the original chunk text — though a truncated snippet as
a whole is not (see the counterexample). -/
theorem content_snippet_truncation (t : String) :
    pyLen (contentSnippet t) ≤ 203 ∧
    (pyLen t ≤ 200 → contentSnippet t = t) ∧
    (200 < pyLen t →
      contentSnippet t = String.mk (t.data.take 200 ++ "...".data) ∧
      (contentSnippet t).data.take 200 <+: t.data) := by
  by_cases h : pyLen t > 200
  · rw [contentSnippet, if_pos h]
    refine ⟨?_, fun hle => absurd h (by omega), fun _ => ⟨rfl, ?_⟩⟩
    · have h3 : ("...".data).length = 3 := rfl
      simp only [pyLen, List.length_append, List.length_take, h3]
      simp only [pyLen] at h
      omega
    · have hlen : (t.data.take 200).length = 200 := by
        have h2 : 200 < t.data.length := h
        rw [List.length_take]
        omega
      rw [show (String.mk (t.data.take 200 ++ "...".data)).data =
            t.data.take 200 ++ "...".data from rfl]
      rw [List.take_left' hlen]
      exact List.take_prefix 200 t.data
  · rw [contentSnippet, if_neg h]
    exact ⟨by omega, fun _ => rfl, fun hgt => absurd hgt h⟩

/-- C8 witness: the amended statement at a short text: the snippet is
the text itself. -/
theorem content_snippet_truncation_witness :
    pyLen (contentSnippet "hello") ≤ 203 ∧ contentSnippet "hello" = "hello" := by
  have h := content_snippet_truncation "hello"
  exact ⟨h.1, h.2.1 (by decide)⟩
